import Mathlib

/-!
Verification development for the payment-collection backend.

The backend's core is `Payment.create` (src/models/Payment.js): inside one
database transaction it inserts a payment row, decrements the owning
customer's outstanding balance by a relative SQL update, opportunistically
marks one PENDING payment-schedule row as PAID, and commits; any failure
rolls the whole transaction back and rethrows a wrapped error.

The embedding models the three tables (customers, payments, payment_schedule
from src/db/schema.sql) as lists of rows inside a `DBState`.  Money columns
are DECIMAL fixed-point in the schema; the database evaluates additions and
subtractions on them exactly, so they are modelled by rationals.  Each
`conn.execute` step of the transaction acts on a pending (uncommitted) state;
`commit` publishes it, `rollback` discards it.  Storage faults the
environment may inject at each step (connection loss, constraint violations
signalled by the driver) are modelled by an oracle in `Env`; the foreign-key
constraint on payments.customer_id and the UNIQUE constraint on
payments.payment_reference_id are modelled inside the insert step itself.
-/

set_option autoImplicit false

namespace PaymentApp

/-- A row of the `customers` table (schema.sql), restricted to the columns the
payment core and its callers read or write. -/
structure Customer where
  id : Nat
  account_number : String
  customer_name : String
  outstanding_balance : Rat
  emi_due : Rat
  status : String
  created_at : Nat
deriving DecidableEq, Repr

/-- A row of the `payments` table (schema.sql).  `payment_date` is the
millisecond timestamp the DATETIME column stores. -/
structure PaymentRow where
  id : Nat
  payment_reference_id : String
  customer_id : Nat
  account_number : String
  payment_date : Nat
  payment_amount : Rat
  status : String
  payment_method : String
  transaction_id : Option String
  remarks : Option String
deriving DecidableEq, Repr

/-- A row of the `payment_schedule` table (schema.sql). -/
structure ScheduleRow where
  id : Nat
  customer_id : Nat
  due_amount : Rat
  paid_amount : Rat
  status : String
deriving DecidableEq, Repr

/-- The durable database state: the three tables plus the payments
auto-increment counter. -/
structure DBState where
  customers : List Customer
  payments : List PaymentRow
  payment_schedule : List ScheduleRow
  nextPaymentId : Nat
deriving DecidableEq, Repr

/-- The argument object of `Payment.create` (paymentData).  `payment_method`
is `none` when the caller omits it, in which case the destructuring default
of the source supplies "UPI". -/
structure PaymentData where
  customer_id : Nat
  account_number : String
  payment_amount : Rat
  payment_method : Option String
  transaction_id : Option String
  remarks : Option String
deriving DecidableEq, Repr

/-- The object `Payment.create` returns on success. -/
structure PaymentRecord where
  id : Nat
  payment_reference_id : String
  payment_amount : Rat
  payment_method : String
  account_number : String
  status : String
  payment_date : Nat
deriving DecidableEq, Repr

/-- The ambient world of one `Payment.create` invocation: `now` is what
`Date.now()` returns, `uuid` is the string `uuidv4()` returns, and the four
`fail*` fields are a storage-fault oracle: `some m` means the corresponding
`conn.execute`/`conn.commit` call raises an error with message `m`. -/
structure Env where
  now : Nat
  uuid : String
  failInsert : Option String
  failBalance : Option String
  failSchedule : Option String
  failCommit : Option String
deriving DecidableEq, Repr

/-- An `Env` in which the storage layer injects no fault. -/
def cleanEnv (env : Env) : Prop :=
  env.failInsert = none ∧ env.failBalance = none ∧
  env.failSchedule = none ∧ env.failCommit = none

instance (env : Env) : Decidable (cleanEnv env) := by
  unfold cleanEnv; infer_instance

/-- The payment reference of src line 22:
`PAY-${Date.now()}-${uuidv4().substring(0, 8)}`. -/
def paymentReference (now : Nat) (uuid : String) : String :=
  "PAY-" ++ toString now ++ "-" ++ uuid.take 8

/-- Whether a customer row with the given id exists (the foreign-key
constraint `payments.customer_id REFERENCES customers(id)`). -/
def fkCustomerExists (s : DBState) (cid : Nat) : Bool :=
  s.customers.any (fun c => c.id == cid)

/-- Whether a payment row with the given reference exists (the UNIQUE
constraint on `payments.payment_reference_id`). -/
def refExists (s : DBState) (ref : String) : Bool :=
  s.payments.any (fun p => p.payment_reference_id == ref)

/-- The INSERT INTO payments step: fails on a foreign-key violation or a
duplicate reference, otherwise appends the row and bumps the counter. -/
def insertPayment (s : DBState) (row : PaymentRow) : Except String DBState :=
  if !(fkCustomerExists s row.customer_id) then
    Except.error "a foreign key constraint fails"
  else if refExists s row.payment_reference_id then
    Except.error "Duplicate entry"
  else
    Except.ok { s with payments := s.payments ++ [row],
                       nextPaymentId := s.nextPaymentId + 1 }

/-- The relative balance decrement of src lines 45-51:
`UPDATE customers SET outstanding_balance = outstanding_balance - ? WHERE id = ?`. -/
def updateOutstandingBalance (s : DBState) (amount : Rat) (cid : Nat) : DBState :=
  { s with customers := s.customers.map (fun c =>
      if c.id == cid then
        { c with outstanding_balance := c.outstanding_balance - amount }
      else c) }

/-- The schedule update of src lines 53-60:
`UPDATE payment_schedule SET paid_amount = paid_amount + ?, status = PAID
WHERE customer_id = ? AND status = PENDING LIMIT 1` — it touches the first
matching row only. -/
def updateScheduleFirst : List ScheduleRow → Rat → Nat → List ScheduleRow
  | [], _, _ => []
  | r :: rs, amount, cid =>
    if r.customer_id == cid && r.status == "PENDING" then
      { r with paid_amount := r.paid_amount + amount, status := "PAID" } :: rs
    else
      r :: updateScheduleFirst rs amount cid

/-- The payments-table row `Payment.create` inserts (src lines 26-42);
`result.insertId` is the pre-insert value of the auto-increment counter. -/
def rowOf (env : Env) (s : DBState) (pd : PaymentData) : PaymentRow :=
  { id := s.nextPaymentId
    payment_reference_id := paymentReference env.now env.uuid
    customer_id := pd.customer_id
    account_number := pd.account_number
    payment_date := env.now
    payment_amount := pd.payment_amount
    status := "SUCCESS"
    payment_method := pd.payment_method.getD "UPI"
    transaction_id := pd.transaction_id
    remarks := pd.remarks }

/-- The object `Payment.create` returns on success (src lines 64-72). -/
def recordOf (env : Env) (s : DBState) (pd : PaymentData) : PaymentRecord :=
  { id := s.nextPaymentId
    payment_reference_id := paymentReference env.now env.uuid
    payment_amount := pd.payment_amount
    payment_method := pd.payment_method.getD "UPI"
    account_number := pd.account_number
    status := "SUCCESS"
    payment_date := env.now }

/-- The body of the `try` block of `Payment.create`: the four transactional
steps against a pending copy of the state, each preceded by a possible
injected storage fault.  On success it yields the pending state the commit
publishes together with the returned record. -/
def createSteps (env : Env) (s : DBState) (pd : PaymentData) :
    Except String (DBState × PaymentRecord) :=
  match env.failInsert with
  | some m => Except.error m
  | none =>
  match insertPayment s (rowOf env s pd) with
  | Except.error m => Except.error m
  | Except.ok s1 =>
  match env.failBalance with
  | some m => Except.error m
  | none =>
  let s2 := updateOutstandingBalance s1 pd.payment_amount pd.customer_id
  match env.failSchedule with
  | some m => Except.error m
  | none =>
  let s3 := { s2 with payment_schedule :=
                updateScheduleFirst s2.payment_schedule pd.payment_amount pd.customer_id }
  match env.failCommit with
  | some m => Except.error m
  | none => Except.ok (s3, recordOf env s pd)

namespace Payment

/-- `Payment.create` (src/models/Payment.js lines 8-79): run the transaction
steps; on success the commit makes the pending state durable; on any failure
the `catch` block rolls back (the durable state stays what it was) and
rethrows `Error creating payment: ${error.message}`. -/
def create (env : Env) (s : DBState) (pd : PaymentData) :
    DBState × Except String PaymentRecord :=
  match createSteps env s pd with
  | Except.ok (s3, rec) => (s3, Except.ok rec)
  | Except.error m => (s, Except.error ("Error creating payment: " ++ m))

/-- `Payment.findByReferenceId` (src lines 126-134):
`SELECT * FROM payments WHERE payment_reference_id = ?`, then `rows[0] || null`. -/
def findByReferenceId (s : DBState) (referenceId : String) : Option PaymentRow :=
  s.payments.find? (fun p => p.payment_reference_id == referenceId)

end Payment

/-- The committed state after a successful `Payment.create` invocation,
written with each table explicit. -/
def stateAfter (env : Env) (s : DBState) (pd : PaymentData) : DBState :=
  { customers := s.customers.map (fun c =>
      if c.id == pd.customer_id then
        { c with outstanding_balance := c.outstanding_balance - pd.payment_amount }
      else c)
    payments := s.payments ++ [rowOf env s pd]
    payment_schedule := updateScheduleFirst s.payment_schedule pd.payment_amount pd.customer_id
    nextPaymentId := s.nextPaymentId + 1 }

/-- A caller-supplied JavaScript number: `none` models a value for which
`Number.isFinite` is false (NaN, infinities, or a non-number), `some q` a
finite value. -/
abbrev JSNum : Type := Option Rat

/-- The sanitized LIMIT value shared by `Payment.findByAccountNumber`,
`Payment.findByCustomerId` and `Customer.findAll`:
`Number.isFinite(limit) ? Math.max(0, Math.floor(limit)) : 50`. -/
def safeLimit50 : JSNum → Int
  | some q => max 0 ⌊q⌋
  | none => 50

/-- The sanitized OFFSET value of the same three functions:
`Number.isFinite(offset) ? Math.max(0, Math.floor(offset)) : 0`. -/
def safeOffset0 : JSNum → Int
  | some q => max 0 ⌊q⌋
  | none => 0

/-- ORDER BY payment_date DESC on payments rows. -/
def payDateDesc (a b : PaymentRow) : Prop :=
  b.payment_date ≤ a.payment_date

instance : DecidableRel payDateDesc := fun a b =>
  inferInstanceAs (Decidable (b.payment_date ≤ a.payment_date))

instance : IsTotal PaymentRow payDateDesc :=
  ⟨fun a b => le_total b.payment_date a.payment_date⟩

instance : IsTrans PaymentRow payDateDesc :=
  ⟨fun _ _ _ h1 h2 => le_trans h2 h1⟩

/-- One row of the `Payment.getPaymentHistory` result set (payments columns
joined with the owning customer's name and current balance). -/
structure HistoryRow where
  payment_reference_id : String
  payment_date : Nat
  payment_amount : Rat
  status : String
  payment_method : String
  transaction_id : Option String
  customer_name : String
  outstanding_balance : Rat
deriving DecidableEq, Repr

/-- ORDER BY payment_date DESC on history rows. -/
def histDateDesc (a b : HistoryRow) : Prop :=
  b.payment_date ≤ a.payment_date

instance : DecidableRel histDateDesc := fun a b =>
  inferInstanceAs (Decidable (b.payment_date ≤ a.payment_date))

instance : IsTotal HistoryRow histDateDesc :=
  ⟨fun a b => le_total b.payment_date a.payment_date⟩

instance : IsTrans HistoryRow histDateDesc :=
  ⟨fun _ _ _ h1 h2 => le_trans h2 h1⟩

namespace Payment

/-- `Payment.findByAccountNumber` (src lines 84-100):
`SELECT p.* FROM payments p WHERE p.account_number = ? AND p.status IN
(SUCCESS, FAILED) ORDER BY p.payment_date DESC LIMIT safeLimit OFFSET
safeOffset`, with limit and offset sanitized as in the source. -/
def findByAccountNumber (s : DBState) (accountNumber : String)
    (limit offset : JSNum) : List PaymentRow :=
  let safeL := (safeLimit50 limit).toNat
  let safeO := (safeOffset0 offset).toNat
  (((s.payments.filter (fun p =>
      p.account_number == accountNumber &&
      (p.status == "SUCCESS" || p.status == "FAILED"))).insertionSort
        payDateDesc).drop safeO).take safeL

/-- `Payment.findByCustomerId` (src lines 105-121): same query keyed by
customer id. -/
def findByCustomerId (s : DBState) (customerId : Nat)
    (limit offset : JSNum) : List PaymentRow :=
  let safeL := (safeLimit50 limit).toNat
  let safeO := (safeOffset0 offset).toNat
  (((s.payments.filter (fun p =>
      p.customer_id == customerId &&
      (p.status == "SUCCESS" || p.status == "FAILED"))).insertionSort
        payDateDesc).drop safeO).take safeL

/-- `Payment.getPaymentHistory` (src lines 161-184): payments of the account
joined with their customer row, ordered by payment_date descending,
LIMIT 100. -/
def getPaymentHistory (s : DBState) (accountNumber : String) : List HistoryRow :=
  let joined := (s.payments.filter
      (fun p => p.account_number == accountNumber)).filterMap (fun p =>
    (s.customers.find? (fun c => c.id == p.customer_id)).map (fun c =>
      { payment_reference_id := p.payment_reference_id
        payment_date := p.payment_date
        payment_amount := p.payment_amount
        status := p.status
        payment_method := p.payment_method
        transaction_id := p.transaction_id
        customer_name := c.customer_name
        outstanding_balance := c.outstanding_balance }))
  (joined.insertionSort histDateDesc).take 100

end Payment

namespace Customer

/-- `Customer.findByAccountNumber` (src/models/Customer.js):
`SELECT * FROM customers WHERE account_number = ?`, then `rows[0] || null`. -/
def findByAccountNumber (s : DBState) (accountNumber : String) : Option Customer :=
  s.customers.find? (fun c => c.account_number == accountNumber)

/-- `Customer.findById`: `SELECT * FROM customers WHERE id = ?`, then
`rows[0] || null`. -/
def findById (s : DBState) (id : Nat) : Option Customer :=
  s.customers.find? (fun c => c.id == id)

/-- ORDER BY created_at DESC on customer rows. -/
def createdDesc (a b : Customer) : Prop :=
  b.created_at ≤ a.created_at

instance : DecidableRel createdDesc := fun a b =>
  inferInstanceAs (Decidable (b.created_at ≤ a.created_at))

instance : IsTotal Customer createdDesc :=
  ⟨fun a b => le_total b.created_at a.created_at⟩

instance : IsTrans Customer createdDesc :=
  ⟨fun _ _ _ h1 h2 => le_trans h2 h1⟩

/-- `Customer.findAll`: `SELECT * FROM customers WHERE status = ACTIVE ORDER
BY created_at DESC LIMIT safeLimit OFFSET safeOffset`, with the same
sanitization of limit and offset as the payment queries. -/
def findAll (s : DBState) (limit offset : JSNum) : List Customer :=
  let safeL := (safeLimit50 limit).toNat
  let safeO := (safeOffset0 offset).toNat
  (((s.customers.filter (fun c => c.status == "ACTIVE")).insertionSort
      createdDesc).drop safeO).take safeL

end Customer

/-- An error object carrying an HTTP status, as built by
`PaymentService.processPayment` (`error.status = 404` / `400`); errors with
no explicit status surface as 500 at the route (`error.status || 500`). -/
structure HttpError where
  status : Nat
  message : String
deriving DecidableEq, Repr

/-- The object `PaymentService.processPayment` resolves with. -/
structure ProcessResult where
  payment : PaymentRecord
  account_number : String
  customer_name : String
  outstanding_balance : Rat
  emi_due : Rat
deriving DecidableEq, Repr

namespace PaymentService

/-- `PaymentService.processPayment` (src/services/paymentService.js): look
the customer up by account number (404 if absent), reject a non-positive
amount and an amount above the outstanding balance (400), then call
`Payment.create` and re-read the customer.  A failure of `Payment.create`
reaches the route with no `status` field, i.e. as status 500. -/
def processPayment (env : Env) (s : DBState) (pd : PaymentData) :
    DBState × Except HttpError ProcessResult :=
  match Customer.findByAccountNumber s pd.account_number with
  | none => (s, Except.error { status := 404, message := "Customer not found" })
  | some customer =>
    if pd.payment_amount ≤ 0 then
      (s, Except.error { status := 400,
                         message := "Payment amount must be greater than 0" })
    else if customer.outstanding_balance < pd.payment_amount then
      (s, Except.error { status := 400,
                         message := "Payment amount exceeds outstanding balance" })
    else
      match Payment.create env s { pd with customer_id := customer.id } with
      | (s', Except.ok rec) =>
        match Customer.findById s' customer.id with
        | none => (s', Except.error { status := 500,
                                      message := "Cannot read properties of null" })
        | some updated =>
          (s', Except.ok { payment := rec
                           account_number := updated.account_number
                           customer_name := updated.customer_name
                           outstanding_balance := updated.outstanding_balance
                           emi_due := updated.emi_due })
      | (s', Except.error m) =>
        (s', Except.error { status := 500, message := m })

end PaymentService

/-- The request body of POST /api/payments as the validation middleware sees
it: `payment_amount` is `none` when the field does not parse as a float
(express-validator `isFloat` fails), `some q` when it parses to the finite
value `q`. -/
structure RawPaymentBody where
  account_number : String
  payment_amount : Option Rat
  payment_method : Option String
  transaction_id : Option String
  remarks : Option String
deriving DecidableEq, Repr

/-- `isFloat({ min: 0.01 })` on the payment_amount field. -/
def isValidAmount (x : Option Rat) : Bool :=
  match x with
  | none => false
  | some q => (1 : Rat) / 100 ≤ q

/-- The error messages accumulated by the `validatePayment` chain
(src/middleware/validation.js lines 46-64); each validator runs and appends
its message independently. -/
def validatePayment (b : RawPaymentBody) : List String :=
  (if b.account_number.trim = "" then ["Account number is required"] else []) ++
  (if b.account_number.trim.length < 3 then
    ["Account number must be at least 3 characters"] else []) ++
  (if isValidAmount b.payment_amount then [] else
    ["Payment amount must be a valid number greater than 0"]) ++
  (match b.payment_method with
   | none => []
   | some m =>
     if m == "UPI" || m == "CARD" || m == "NET_BANKING" || m == "CHEQUE" then []
     else ["Invalid payment method"]) ++
  (match b.remarks with
   | none => []
   | some r => if r.trim.length ≤ 500 then [] else
     ["Remarks must not exceed 500 characters"])

/-- An HTTP response as far as the claims observe it. -/
structure HttpResponse where
  status : Nat
  message : String
deriving DecidableEq, Repr

/-- POST /api/payments (src/routes/paymentRoutes.js): `handleValidationErrors`
answers 400 "Validation Error" when the `validatePayment` chain collected any
error, without running the handler; otherwise the handler calls
`PaymentService.processPayment` and answers 201 on success or
`error.status || 500` on failure. -/
def postPaymentRoute (env : Env) (s : DBState) (b : RawPaymentBody) :
    DBState × HttpResponse :=
  if (validatePayment b).isEmpty then
    match PaymentService.processPayment env s
        { customer_id := 0
          account_number := b.account_number.trim
          payment_amount := (b.payment_amount.getD 0)
          payment_method := b.payment_method
          transaction_id := b.transaction_id
          remarks := b.remarks.map String.trim } with
    | (s', Except.ok _) =>
      (s', { status := 201, message := "Payment processed successfully" })
    | (s', Except.error e) =>
      (s', { status := e.status, message := e.message })
  else
    (s, { status := 400, message := "Validation Error" })

/-- One serialization of a set of concurrent postings: the database commits
the transactions one after another in some order; `postSeq` runs them in the
order of the list, each against the durable state the previous one left. -/
def postSeq : List Env → PaymentData → DBState → DBState
  | [], _, s => s
  | e :: es, pd, s => postSeq es pd (Payment.create e s pd).1

/-- The outstanding balance the customers table currently stores for a
customer id (`none` when no such row exists). -/
def balanceOf (s : DBState) (cid : Nat) : Option Rat :=
  (s.customers.find? (fun c => c.id == cid)).map (fun c => c.outstanding_balance)

/-! Concrete sample rows and environments, used by the witnesses.  They mirror
the ACC001 sample customer of schema.sql. -/

def custA : Customer :=
  { id := 1, account_number := "ACC001", customer_name := "Rahul Kumar",
    outstanding_balance := 150000, emi_due := 5000, status := "ACTIVE",
    created_at := 1 }

def schedA : ScheduleRow :=
  { id := 1, customer_id := 1, due_amount := 5000, paid_amount := 0,
    status := "PENDING" }

def dbA : DBState :=
  { customers := [custA], payments := [], payment_schedule := [schedA],
    nextPaymentId := 1 }

def pdA : PaymentData :=
  { customer_id := 1, account_number := "ACC001", payment_amount := 5000,
    payment_method := none, transaction_id := none, remarks := none }

def envA : Env :=
  { now := 1000, uuid := "11112222-aaaa-4bbb-8ccc-000000000001",
    failInsert := none, failBalance := none, failSchedule := none,
    failCommit := none }

def envB : Env :=
  { now := 2000, uuid := "33334444-aaaa-4bbb-8ccc-000000000002",
    failInsert := none, failBalance := none, failSchedule := none,
    failCommit := none }

def envFail : Env :=
  { now := 1000, uuid := "11112222-aaaa-4bbb-8ccc-000000000001",
    failInsert := none, failBalance := none, failSchedule := none,
    failCommit := some "connection lost" }

def pdNope : PaymentData :=
  { customer_id := 0, account_number := "NOPE", payment_amount := 5000,
    payment_method := none, transaction_id := none, remarks := none }

def bLow : RawPaymentBody :=
  { account_number := "ACC001", payment_amount := some (1 / 200),
    payment_method := none, transaction_id := none, remarks := none }

lemma create_eq_ok {env : Env} {s : DBState} {pd : PaymentData}
    {s3 : DBState} {rec : PaymentRecord}
    (h : createSteps env s pd = Except.ok (s3, rec)) :
    Payment.create env s pd = (s3, Except.ok rec) := by
  unfold Payment.create
  rw [h]

lemma create_eq_error {env : Env} {s : DBState} {pd : PaymentData} {m : String}
    (h : createSteps env s pd = Except.error m) :
    Payment.create env s pd = (s, Except.error ("Error creating payment: " ++ m)) := by
  unfold Payment.create
  rw [h]

lemma create_ok_inv {env : Env} {s s' : DBState} {pd : PaymentData}
    {rec : PaymentRecord}
    (h : Payment.create env s pd = (s', Except.ok rec)) :
    createSteps env s pd = Except.ok (s', rec) := by
  cases hc : createSteps env s pd with
  | ok v =>
    obtain ⟨a, b⟩ := v
    rw [create_eq_ok hc] at h
    obtain ⟨h1, h2⟩ := Prod.mk.injEq _ _ _ _ ▸ h
    cases h2
    cases h1
    rfl
  | error m =>
    rw [create_eq_error hc] at h
    exact absurd (congrArg Prod.snd h) (by simp)

lemma insertPayment_ok_inv {s : DBState} {row : PaymentRow} {t : DBState}
    (h : insertPayment s row = Except.ok t) :
    fkCustomerExists s row.customer_id = true ∧
    refExists s row.payment_reference_id = false ∧
    t = { s with payments := s.payments ++ [row],
                 nextPaymentId := s.nextPaymentId + 1 } := by
  unfold insertPayment at h
  by_cases hfk : fkCustomerExists s row.customer_id
  · by_cases href : refExists s row.payment_reference_id
    · simp [hfk, href] at h
    · simp [hfk, href] at h
      exact ⟨hfk, by simp [href], h.symm⟩
  · simp [hfk] at h

/-- Inversion of a successful transaction: every step ran without an injected
fault, the foreign-key and uniqueness checks passed, and the committed state
and returned record are the explicit ones. -/
lemma createSteps_ok_inv {env : Env} {s : DBState} {pd : PaymentData}
    {out : DBState × PaymentRecord}
    (h : createSteps env s pd = Except.ok out) :
    cleanEnv env ∧
    fkCustomerExists s pd.customer_id = true ∧
    refExists s (paymentReference env.now env.uuid) = false ∧
    out = (stateAfter env s pd, recordOf env s pd) := by
  unfold createSteps at h
  cases h1 : env.failInsert with
  | some m => rw [h1] at h; cases h
  | none =>
  rw [h1] at h
  cases hi : insertPayment s (rowOf env s pd) with
  | error m => rw [hi] at h; cases h
  | ok s1 =>
  rw [hi] at h
  cases h2 : env.failBalance with
  | some m => rw [h2] at h; cases h
  | none =>
  rw [h2] at h
  cases h3 : env.failSchedule with
  | some m => rw [h3] at h; cases h
  | none =>
  rw [h3] at h
  cases h4 : env.failCommit with
  | some m => rw [h4] at h; cases h
  | none =>
  rw [h4] at h
  obtain ⟨hfk, href, hs1⟩ := insertPayment_ok_inv hi
  refine ⟨⟨h1, h2, h3, h4⟩, hfk, href, ?_⟩
  cases h
  subst hs1
  rfl

/-- Constructive success: with no injected fault, an existing customer and a
fresh reference, the transaction commits the explicit state. -/
lemma createSteps_ok_of {env : Env} {s : DBState} {pd : PaymentData}
    (hc : cleanEnv env)
    (hfk : fkCustomerExists s pd.customer_id = true)
    (href : refExists s (paymentReference env.now env.uuid) = false) :
    createSteps env s pd = Except.ok (stateAfter env s pd, recordOf env s pd) := by
  obtain ⟨h1, h2, h3, h4⟩ := hc
  unfold createSteps
  rw [h1, h2, h3, h4]
  unfold insertPayment
  simp only [rowOf, hfk, href, Bool.not_true, Bool.false_eq_true, if_false, if_pos rfl]
  rfl

lemma stateAfter_customers (env : Env) (s : DBState) (pd : PaymentData) :
    (stateAfter env s pd).customers = s.customers.map (fun c =>
      if c.id == pd.customer_id then
        { c with outstanding_balance := c.outstanding_balance - pd.payment_amount }
      else c) := rfl

lemma stateAfter_payments (env : Env) (s : DBState) (pd : PaymentData) :
    (stateAfter env s pd).payments = s.payments ++ [rowOf env s pd] := rfl

lemma stateAfter_schedule (env : Env) (s : DBState) (pd : PaymentData) :
    (stateAfter env s pd).payment_schedule =
      updateScheduleFirst s.payment_schedule pd.payment_amount pd.customer_id := rfl

lemma any_map_id_pres {l : List Customer} {f : Customer → Customer}
    (hf : ∀ c, (f c).id = c.id) (q : Nat) :
    (l.map f).any (fun c => c.id == q) = l.any (fun c => c.id == q) := by
  induction l with
  | nil => rfl
  | cons c cs ih => simp only [List.map_cons, List.any_cons, hf, ih]

lemma fk_stateAfter (env : Env) (s : DBState) (pd : PaymentData) (q : Nat) :
    fkCustomerExists (stateAfter env s pd) q = fkCustomerExists s q := by
  unfold fkCustomerExists
  rw [stateAfter_customers]
  exact any_map_id_pres (fun c => by split <;> rfl) q

lemma refExists_stateAfter (env : Env) (s : DBState) (pd : PaymentData)
    (r : String) :
    refExists (stateAfter env s pd) r =
      (refExists s r || (paymentReference env.now env.uuid == r)) := by
  unfold refExists
  rw [stateAfter_payments]
  simp [rowOf]

lemma find?_id_map_dec (l : List Customer) (a : Rat) (cid : Nat) :
    (l.map (fun c => if c.id == cid then
        { c with outstanding_balance := c.outstanding_balance - a }
      else c)).find? (fun c => c.id == cid) =
    (l.find? (fun c => c.id == cid)).map (fun c =>
      { c with outstanding_balance := c.outstanding_balance - a }) := by
  induction l with
  | nil => rfl
  | cons c cs ih =>
    by_cases h : (c.id == cid) = true
    · have hid : c.id = cid := by simpa using h
      subst hid
      simp only [List.map_cons, beq_self_eq_true, if_true,
        List.find?_cons_of_pos, Option.map_some]
      rfl
    · rw [List.map_cons,
        @List.find?_cons_of_neg _ (fun c => c.id == cid)
          (if (c.id == cid) = true then
            { c with outstanding_balance := c.outstanding_balance - a }
          else c) _ (by rw [if_neg h]; exact h),
        ih, @List.find?_cons_of_neg _ (fun c => c.id == cid) c _ h]

lemma balanceOf_stateAfter (env : Env) (s : DBState) (pd : PaymentData) :
    balanceOf (stateAfter env s pd) pd.customer_id =
      (balanceOf s pd.customer_id).map (fun b => b - pd.payment_amount) := by
  unfold balanceOf
  rw [stateAfter_customers, find?_id_map_dec]
  cases s.customers.find? (fun c => c.id == pd.customer_id) <;> rfl

lemma stateAfter_payments_length (env : Env) (s : DBState) (pd : PaymentData) :
    (stateAfter env s pd).payments.length = s.payments.length + 1 := by
  rw [stateAfter_payments]
  simp

/-- Claim C1: if any step of `Payment.create` (payment insert, balance
decrement, schedule update, commit) fails, the whole transaction is rolled
back — the durable payments, customers and payment_schedule tables are
exactly what they were before the call — and the error is propagated to the
caller wrapped as `Error creating payment: ...`; the operation never
partially commits and never swallows an error. -/
theorem create_error_rolls_back (env : Env) (s s' : DBState) (pd : PaymentData)
    (e : String) (h : Payment.create env s pd = (s', Except.error e)) :
    s'.payments = s.payments ∧ s'.customers = s.customers ∧
    s'.payment_schedule = s.payment_schedule ∧
    ∃ m, e = "Error creating payment: " ++ m := by
  cases hc : createSteps env s pd with
  | ok v =>
    obtain ⟨a, b⟩ := v
    rw [create_eq_ok hc] at h
    exact absurd (congrArg Prod.snd h) (by simp)
  | error m =>
    rw [create_eq_error hc] at h
    obtain ⟨h1, h2⟩ := Prod.mk.injEq _ _ _ _ ▸ h
    cases h1
    exact ⟨rfl, rfl, rfl, m, (Except.error.inj h2).symm⟩

/-- Witness for C1: a commit-time failure leaves the sample database
untouched and surfaces as a wrapped error. -/
theorem create_error_rolls_back_witness :
    dbA.payments = dbA.payments ∧ dbA.customers = dbA.customers ∧
    dbA.payment_schedule = dbA.payment_schedule ∧
    ∃ m, "Error creating payment: connection lost" =
      "Error creating payment: " ++ m :=
  create_error_rolls_back envFail dbA dbA pdA
    "Error creating payment: connection lost" (by rfl)

/-- Claim C2: a successful posting of amount `a` decrements the posting
customer's outstanding balance by exactly `a` (exact fixed-point arithmetic,
no rounding drift) through the single relative update addressed by customer
id, and leaves every other customer's row unchanged. -/
theorem create_balance_conservation (env : Env) (s s' : DBState)
    (pd : PaymentData) (rec : PaymentRecord)
    (h : Payment.create env s pd = (s', Except.ok rec)) :
    (∀ c ∈ s.customers, c.id = pd.customer_id →
       { c with outstanding_balance := c.outstanding_balance - pd.payment_amount }
         ∈ s'.customers) ∧
    (∀ c ∈ s.customers, c.id ≠ pd.customer_id → c ∈ s'.customers) ∧
    s'.customers.length = s.customers.length := by
  obtain ⟨-, -, -, hout⟩ := createSteps_ok_inv (create_ok_inv h)
  obtain ⟨hs, -⟩ := Prod.mk.injEq _ _ _ _ ▸ hout
  subst hs
  rw [stateAfter_customers]
  refine ⟨?_, ?_, by simp⟩
  · intro c hc hid
    have hmem := List.mem_map_of_mem (fun c =>
      if c.id == pd.customer_id then
        { c with outstanding_balance := c.outstanding_balance - pd.payment_amount }
      else c) hc
    simpa [hid] using hmem
  · intro c hc hid
    have hmem := List.mem_map_of_mem (fun c =>
      if c.id == pd.customer_id then
        { c with outstanding_balance := c.outstanding_balance - pd.payment_amount }
      else c) hc
    simpa [hid] using hmem

/-- Witness for C2: posting 5000 against the sample customer with balance
150000 leaves a row with balance exactly 145000. -/
theorem create_balance_conservation_witness :
    { custA with outstanding_balance :=
        custA.outstanding_balance - pdA.payment_amount }
      ∈ (stateAfter envA dbA pdA).customers :=
  (create_balance_conservation envA dbA (stateAfter envA dbA pdA) pdA
    (recordOf envA dbA pdA)
    (create_eq_ok (createSteps_ok_of (by decide) (by decide) (by decide)))).1
    custA (by decide) rfl

/-- The heart of C3: running any serialization of a list of clean postings,
all of amount `pd.payment_amount` against customer `pd.customer_id`, drains
the balance by the full sum and adds one payment row per posting. -/
lemma postSeq_spec (envs : List Env) (pd : PaymentData) :
    ∀ (s : DBState) (B : Rat),
      (∀ e ∈ envs, cleanEnv e) →
      envs.Pairwise (fun a b =>
        (paymentReference a.now a.uuid == paymentReference b.now b.uuid) = false) →
      (∀ e ∈ envs, refExists s (paymentReference e.now e.uuid) = false) →
      fkCustomerExists s pd.customer_id = true →
      balanceOf s pd.customer_id = some B →
      balanceOf (postSeq envs pd s) pd.customer_id =
        some (B - envs.length * pd.payment_amount) ∧
      (postSeq envs pd s).payments.length = s.payments.length + envs.length := by
  induction envs with
  | nil =>
    intro s B _ _ _ _ hbal
    simp only [postSeq, List.length_nil, Nat.cast_zero, zero_mul, sub_zero,
      Nat.add_zero]
    exact ⟨hbal, by trivial⟩
  | cons e es ih =>
    intro s B hclean hdist hfresh hfk hbal
    have hstep := create_eq_ok (createSteps_ok_of
      (hclean e (List.mem_cons_self e es)) hfk
      (hfresh e (List.mem_cons_self e es)))
    have hpost : postSeq (e :: es) pd s = postSeq es pd (stateAfter e s pd) := by
      show postSeq es pd (Payment.create e s pd).1 = _
      rw [hstep]
    obtain ⟨hhead, htail⟩ := List.pairwise_cons.mp hdist
    have hfresh2 : ∀ x ∈ es,
        refExists (stateAfter e s pd) (paymentReference x.now x.uuid) = false := by
      intro x hx
      rw [refExists_stateAfter, hfresh x (List.mem_cons_of_mem e hx),
        Bool.false_or]
      exact hhead x hx
    have hbal2 : balanceOf (stateAfter e s pd) pd.customer_id =
        some (B - pd.payment_amount) := by
      rw [balanceOf_stateAfter, hbal]
      rfl
    obtain ⟨ihb, ihl⟩ := ih (stateAfter e s pd) (B - pd.payment_amount)
      (fun x hx => hclean x (List.mem_cons_of_mem e hx))
      htail hfresh2
      (by rw [fk_stateAfter]; exact hfk) hbal2
    rw [hpost]
    constructor
    · rw [ihb]
      congr 1
      push_cast [List.length_cons]
      ring
    · rw [ihl, stateAfter_payments_length, List.length_cons]
      omega

/-- Claim C3: for any number of concurrent postings of the same amount
against one customer — modelled as the postings committing in an arbitrary
serialization order, which the database's row-level locking guarantees for
the relative-decrement update — the final balance is exactly the initial
balance minus length-many times the amount, and exactly length-many payment
rows are added, regardless of the order. -/
theorem create_concurrent_correctness (envs : List Env) (pd : PaymentData)
    (s : DBState) (B : Rat)
    (hclean : ∀ e ∈ envs, cleanEnv e)
    (hdist : envs.Pairwise (fun a b =>
      (paymentReference a.now a.uuid == paymentReference b.now b.uuid) = false))
    (hfresh : ∀ e ∈ envs, refExists s (paymentReference e.now e.uuid) = false)
    (hfk : fkCustomerExists s pd.customer_id = true)
    (hbal : balanceOf s pd.customer_id = some B) :
    balanceOf (postSeq envs pd s) pd.customer_id =
      some (B - envs.length * pd.payment_amount) ∧
    (postSeq envs pd s).payments.length = s.payments.length + envs.length :=
  postSeq_spec envs pd s B hclean hdist hfresh hfk hbal

/-- Witness for C3: two postings of 5000 against the sample customer with
balance 150000 end at exactly 140000 and two payment rows. -/
theorem create_concurrent_correctness_witness :
    balanceOf (postSeq [envA, envB] pdA dbA) pdA.customer_id =
      some (150000 - ([envA, envB].length : Nat) * pdA.payment_amount) ∧
    (postSeq [envA, envB] pdA dbA).payments.length =
      dbA.payments.length + [envA, envB].length :=
  create_concurrent_correctness [envA, envB] pdA dbA 150000
    (by decide) (by decide) (by decide) (by decide) (by decide)

/-- Claim C4: the reference of every successful posting is
`PAY-` ++ millisecond timestamp ++ `-` ++ the first 8 characters of the
128-bit random uuid string, and two successive successful postings — against
the same customer or not — never return the same reference (the UNIQUE index
on payment_reference_id makes a colliding second insert fail instead). -/
theorem create_reference_unique :
    (∀ env s pd s' rec, Payment.create env s pd = (s', Except.ok rec) →
       rec.payment_reference_id =
         "PAY-" ++ toString env.now ++ "-" ++ env.uuid.take 8) ∧
    (∀ env1 env2 s pd1 pd2 s1 s2 rec1 rec2,
       Payment.create env1 s pd1 = (s1, Except.ok rec1) →
       Payment.create env2 s1 pd2 = (s2, Except.ok rec2) →
       rec1.payment_reference_id ≠ rec2.payment_reference_id) := by
  constructor
  · intro env s pd s' rec h
    obtain ⟨-, -, -, hout⟩ := createSteps_ok_inv (create_ok_inv h)
    obtain ⟨-, hrec⟩ := Prod.mk.injEq _ _ _ _ ▸ hout
    subst hrec
    rfl
  · intro env1 env2 s pd1 pd2 s1 s2 rec1 rec2 h1 h2
    obtain ⟨-, -, -, hout1⟩ := createSteps_ok_inv (create_ok_inv h1)
    obtain ⟨hs1, hrec1⟩ := Prod.mk.injEq _ _ _ _ ▸ hout1
    obtain ⟨-, -, href2, hout2⟩ := createSteps_ok_inv (create_ok_inv h2)
    obtain ⟨-, hrec2⟩ := Prod.mk.injEq _ _ _ _ ▸ hout2
    subst hs1
    subst hrec1
    subst hrec2
    rw [refExists_stateAfter] at href2
    intro heq
    simp only [recordOf] at heq
    simp [heq] at href2

/-- Claim C5: `PaymentService.processPayment` rejects before ever reaching
`Payment.create`: an unresolvable account number yields a 404 error, and a
non-positive amount or an amount above the outstanding balance yields a 400
error; in each case the returned durable state is the input state — no
payment row is inserted and no balance changes. -/
theorem processPayment_validation :
    (∀ env s pd, Customer.findByAccountNumber s pd.account_number = none →
       PaymentService.processPayment env s pd =
         (s, Except.error { status := 404, message := "Customer not found" })) ∧
    (∀ env s pd c, Customer.findByAccountNumber s pd.account_number = some c →
       (pd.payment_amount ≤ 0 ∨ c.outstanding_balance < pd.payment_amount) →
       ∃ msg, PaymentService.processPayment env s pd =
         (s, Except.error { status := 400, message := msg })) := by
  constructor
  · intro env s pd h
    unfold PaymentService.processPayment
    rw [h]
  · intro env s pd c h hv
    unfold PaymentService.processPayment
    rw [h]
    dsimp only
    by_cases hle : pd.payment_amount ≤ 0
    · exact ⟨"Payment amount must be greater than 0", by rw [if_pos hle]⟩
    · have hgt : c.outstanding_balance < pd.payment_amount := hv.resolve_left hle
      exact ⟨"Payment amount exceeds outstanding balance",
        by rw [if_neg hle, if_pos hgt]⟩

/-- Witness for C5: an unknown account gets 404 and a zero amount gets 400,
both leaving the sample state unchanged. -/
theorem processPayment_validation_witness :
    PaymentService.processPayment envA dbA pdNope =
      (dbA, Except.error { status := 404, message := "Customer not found" }) ∧
    ∃ msg, PaymentService.processPayment envA dbA
        { pdA with payment_amount := 0 } =
      (dbA, Except.error { status := 400, message := msg }) :=
  ⟨processPayment_validation.1 envA dbA pdNope (by decide),
   processPayment_validation.2 envA dbA { pdA with payment_amount := 0 } custA
     (by decide) (Or.inl (by norm_num))⟩

lemma find?_append_of_all_false {α : Type} {p : α → Bool} {l1 l2 : List α}
    (h : ∀ x ∈ l1, p x = false) :
    List.find? p (l1 ++ l2) = List.find? p l2 := by
  induction l1 with
  | nil => rfl
  | cons a l ih =>
    rw [List.cons_append,
      @List.find?_cons_of_neg _ p a (l ++ l2)
        (by rw [h a (List.mem_cons_self a l)]; simp),
      ih (fun x hx => h x (List.mem_cons_of_mem a hx))]

lemma recordOf_ref (env : Env) (s : DBState) (pd : PaymentData) :
    (recordOf env s pd).payment_reference_id =
      paymentReference env.now env.uuid := rfl

/-- Claim C6: a successful posting inserts a row with status SUCCESS — the
core never produces any other status, it returns SUCCESS or raises — and
immediately fetching the payment by the returned reference through
`findByReferenceId` yields a row whose amount, method and status equal both
what was submitted and what was returned. -/
theorem create_read_after_write (env : Env) (s s' : DBState) (pd : PaymentData)
    (rec : PaymentRecord)
    (h : Payment.create env s pd = (s', Except.ok rec)) :
    rec.status = "SUCCESS" ∧
    ∃ row, Payment.findByReferenceId s' rec.payment_reference_id = some row ∧
      row.payment_amount = pd.payment_amount ∧
      row.payment_method = pd.payment_method.getD "UPI" ∧
      row.status = "SUCCESS" ∧
      row.payment_amount = rec.payment_amount ∧
      row.payment_method = rec.payment_method ∧
      row.status = rec.status := by
  obtain ⟨-, -, href, hout⟩ := createSteps_ok_inv (create_ok_inv h)
  obtain ⟨hs, hrec⟩ := Prod.mk.injEq _ _ _ _ ▸ hout
  subst hs
  subst hrec
  refine ⟨rfl, rowOf env s pd, ?_, rfl, rfl, rfl, rfl, rfl, rfl⟩
  have hall : ∀ x ∈ s.payments,
      (x.payment_reference_id == paymentReference env.now env.uuid) = false := by
    intro x hx
    cases hpx : (x.payment_reference_id == paymentReference env.now env.uuid) with
    | false => rfl
    | true =>
      have hany : s.payments.any
          (fun q => q.payment_reference_id ==
            paymentReference env.now env.uuid) = true :=
        List.any_eq_true.mpr ⟨x, hx, hpx⟩
      have href2 : s.payments.any
          (fun q => q.payment_reference_id ==
            paymentReference env.now env.uuid) = false := href
      rw [hany] at href2
      exact Bool.noConfusion href2
  show List.find? (fun q => q.payment_reference_id ==
      (recordOf env s pd).payment_reference_id)
      (stateAfter env s pd).payments = some (rowOf env s pd)
  rw [recordOf_ref, stateAfter_payments, find?_append_of_all_false hall,
    @List.find?_cons_of_pos _
      (fun q => q.payment_reference_id == paymentReference env.now env.uuid)
      (rowOf env s pd) []
      (by show (paymentReference env.now env.uuid ==
            paymentReference env.now env.uuid) = true
          exact beq_self_eq_true _)]

/-- Witness for C6: the sample posting is readable back by its reference with
matching amount, method and SUCCESS status. -/
theorem create_read_after_write_witness :
    (recordOf envA dbA pdA).status = "SUCCESS" ∧
    ∃ row, Payment.findByReferenceId (stateAfter envA dbA pdA)
        (recordOf envA dbA pdA).payment_reference_id = some row ∧
      row.payment_amount = pdA.payment_amount ∧
      row.payment_method = pdA.payment_method.getD "UPI" ∧
      row.status = "SUCCESS" ∧
      row.payment_amount = (recordOf envA dbA pdA).payment_amount ∧
      row.payment_method = (recordOf envA dbA pdA).payment_method ∧
      row.status = (recordOf envA dbA pdA).status :=
  create_read_after_write envA dbA (stateAfter envA dbA pdA) pdA
    (recordOf envA dbA pdA)
    (create_eq_ok (createSteps_ok_of (by decide) (by decide) (by decide)))

/-- Witness for C4: the two sample postings return distinct references. -/
theorem create_reference_unique_witness :
    (recordOf envA dbA pdA).payment_reference_id ≠
      (recordOf envB (stateAfter envA dbA pdA) pdA).payment_reference_id :=
  create_reference_unique.2 envA envB dbA pdA pdA
    (stateAfter envA dbA pdA) (stateAfter envB (stateAfter envA dbA pdA) pdA)
    (recordOf envA dbA pdA) (recordOf envB (stateAfter envA dbA pdA) pdA)
    (create_eq_ok (createSteps_ok_of (by decide) (by decide) (by decide)))
    (create_eq_ok (createSteps_ok_of (by decide) (by decide) (by decide)))

lemma updateScheduleFirst_length (l : List ScheduleRow) (a : Rat) (cid : Nat) :
    (updateScheduleFirst l a cid).length = l.length := by
  induction l with
  | nil => rfl
  | cons r rs ih =>
    unfold updateScheduleFirst
    split
    · simp
    · simp [ih]

/-- At most one position of the schedule changes: some index `i` exists with
every other index unchanged. -/
lemma updateScheduleFirst_frame (l : List ScheduleRow) (a : Rat) (cid : Nat) :
    ∃ i, ∀ j, j ≠ i → (updateScheduleFirst l a cid).get? j = l.get? j := by
  induction l with
  | nil => exact ⟨0, fun j _ => rfl⟩
  | cons r rs ih =>
    unfold updateScheduleFirst
    split
    · refine ⟨0, fun j hj => ?_⟩
      cases j with
      | zero => exact absurd rfl hj
      | succ k => rfl
    · obtain ⟨i, hi⟩ := ih
      refine ⟨i + 1, fun j hj => ?_⟩
      cases j with
      | zero => rfl
      | succ k =>
        exact hi k (fun hk => hj (by rw [hk]))

/-- A position that does change held a PENDING row of the posting customer
and now holds it with the amount added and status PAID. -/
lemma updateScheduleFirst_changed (l : List ScheduleRow) (a : Rat) (cid : Nat) :
    ∀ j r, l.get? j = some r →
      (updateScheduleFirst l a cid).get? j ≠ some r →
      r.customer_id = cid ∧ r.status = "PENDING" ∧
      (updateScheduleFirst l a cid).get? j =
        some { r with paid_amount := r.paid_amount + a, status := "PAID" } := by
  induction l with
  | nil =>
    intro j r hj
    rw [List.get?_nil] at hj
    exact Option.noConfusion hj
  | cons q rs ih =>
    intro j r hj hne
    unfold updateScheduleFirst at hne ⊢
    by_cases hc : (q.customer_id == cid && q.status == "PENDING") = true
    · rw [if_pos hc] at hne ⊢
      cases j with
      | zero =>
        rw [List.get?_cons_zero] at hj
        obtain ⟨hq⟩ := hj
        obtain ⟨h1, h2⟩ := Bool.and_eq_true .. ▸ hc
        exact ⟨by simpa using h1, by simpa using h2, by rw [List.get?_cons_zero]⟩
      | succ k =>
        rw [List.get?_cons_succ] at hj hne ⊢
        exact absurd hj hne
    · rw [if_neg hc] at hne ⊢
      cases j with
      | zero =>
        rw [List.get?_cons_zero] at hj hne ⊢
        exact absurd hj hne
      | succ k =>
        rw [List.get?_cons_succ] at hj hne ⊢
        exact ih k r hj hne

/-- When the customer has no PENDING schedule entry the update is the
identity. -/
lemma updateScheduleFirst_no_pending (l : List ScheduleRow) (a : Rat) (cid : Nat)
    (h : ∀ r ∈ l, r.customer_id = cid → r.status ≠ "PENDING") :
    updateScheduleFirst l a cid = l := by
  induction l with
  | nil => rfl
  | cons q rs ih =>
    unfold updateScheduleFirst
    have hq : (q.customer_id == cid && q.status == "PENDING") = false := by
      by_cases h1 : (q.customer_id == cid) = true
      · rw [h1, Bool.true_and]
        exact beq_false_of_ne (h q (List.mem_cons_self q rs) (by simpa using h1))
      · have h1f : (q.customer_id == cid) = false := by
          cases hb : (q.customer_id == cid) with
          | false => rfl
          | true => exact absurd hb h1
        rw [h1f, Bool.false_and]
    rw [if_neg (by rw [hq]; simp),
      ih (fun r hr hid => h r (List.mem_cons_of_mem q hr) hid)]

/-- Claim C7: a successful posting mutates at most one payment_schedule row —
the length is unchanged, all positions but at most one are untouched, and any
touched position held a PENDING row of the posting customer which now carries
paid_amount + amount and status PAID; if the customer has no PENDING row the
schedule is wholly unchanged, and (second conjunct) the posting still
succeeds regardless of the schedule's content. -/
theorem create_schedule_bounded_effect :
    (∀ env s pd s' rec, Payment.create env s pd = (s', Except.ok rec) →
       s'.payment_schedule.length = s.payment_schedule.length ∧
       (∃ i, ∀ j, j ≠ i →
          s'.payment_schedule.get? j = s.payment_schedule.get? j) ∧
       (∀ j r, s.payment_schedule.get? j = some r →
          s'.payment_schedule.get? j ≠ some r →
          r.customer_id = pd.customer_id ∧ r.status = "PENDING" ∧
          s'.payment_schedule.get? j = some { r with
            paid_amount := r.paid_amount + pd.payment_amount,
            status := "PAID" }) ∧
       ((∀ r ∈ s.payment_schedule, r.customer_id = pd.customer_id →
           r.status ≠ "PENDING") →
          s'.payment_schedule = s.payment_schedule)) ∧
    (∀ env s pd, cleanEnv env →
       fkCustomerExists s pd.customer_id = true →
       refExists s (paymentReference env.now env.uuid) = false →
       ∃ s' rec, Payment.create env s pd = (s', Except.ok rec)) := by
  constructor
  · intro env s pd s' rec h
    obtain ⟨-, -, -, hout⟩ := createSteps_ok_inv (create_ok_inv h)
    obtain ⟨hs, -⟩ := Prod.mk.injEq _ _ _ _ ▸ hout
    subst hs
    rw [stateAfter_schedule]
    exact ⟨updateScheduleFirst_length _ _ _, updateScheduleFirst_frame _ _ _,
      updateScheduleFirst_changed _ _ _,
      fun hnp => updateScheduleFirst_no_pending _ _ _ hnp⟩
  · intro env s pd hc hfk href
    exact ⟨_, _, create_eq_ok (createSteps_ok_of hc hfk href)⟩

/-- Witness for C7: the sample posting against a customer with one PENDING
schedule row succeeds. -/
theorem create_schedule_bounded_effect_witness :
    ∃ s' rec, Payment.create envA dbA pdA = (s', Except.ok rec) :=
  create_schedule_bounded_effect.2 envA dbA pdA (by decide) (by decide)
    (by decide)

/-- Claim C8: payment-history queries return the account's rows ordered by
descending payment timestamp — both `findByAccountNumber` and
`getPaymentHistory` produce lists sorted most-recent-first — and after two
successive successful postings on the sample account the history is exactly
those two rows in reverse chronological order. -/
theorem payment_history_sorted_desc :
    (∀ s acc, List.Sorted histDateDesc (Payment.getPaymentHistory s acc)) ∧
    (∀ s acc limit offset,
       List.Sorted payDateDesc (Payment.findByAccountNumber s acc limit offset)) ∧
    (Payment.getPaymentHistory
        (Payment.create envB (Payment.create envA dbA pdA).1 pdA).1 "ACC001" =
      [{ payment_reference_id := "PAY-2000-33334444", payment_date := 2000,
         payment_amount := 5000, status := "SUCCESS", payment_method := "UPI",
         transaction_id := none, customer_name := "Rahul Kumar",
         outstanding_balance := 150000 - 5000 - 5000 },
       { payment_reference_id := "PAY-1000-11112222", payment_date := 1000,
         payment_amount := 5000, status := "SUCCESS", payment_method := "UPI",
         transaction_id := none, customer_name := "Rahul Kumar",
         outstanding_balance := 150000 - 5000 - 5000 }] ∧
      (150000 : Rat) - 5000 - 5000 = 140000) := by
  refine ⟨?_, ?_, ?_, ?_⟩
  · intro s acc
    exact List.Pairwise.sublist (List.take_sublist _ _)
      (List.sorted_insertionSort histDateDesc _)
  · intro s acc limit offset
    exact List.Pairwise.sublist
      ((List.take_sublist _ _).trans (List.drop_sublist _ _))
      (List.sorted_insertionSort payDateDesc _)
  · rfl
  · norm_num

/-- Claim C9: the limit/offset sanitization shared by
`Payment.findByAccountNumber`, `Payment.findByCustomerId` and
`Customer.findAll` always yields finite non-negative integers: a non-finite
input falls back to the defaults (limit 50, offset 0), a negative input is
clamped to 0, and a finite input is floored (with the clamp at 0). -/
theorem pagination_sanitized :
    (safeLimit50 none = 50 ∧ safeOffset0 none = 0) ∧
    (∀ x : JSNum, 0 ≤ safeLimit50 x ∧ 0 ≤ safeOffset0 x) ∧
    (∀ q : Rat, q < 0 → safeLimit50 (some q) = 0 ∧ safeOffset0 (some q) = 0) ∧
    (∀ q : Rat, 0 ≤ q →
       safeLimit50 (some q) = ⌊q⌋ ∧ safeOffset0 (some q) = ⌊q⌋) := by
  refine ⟨⟨rfl, rfl⟩, ?_, ?_, ?_⟩
  · intro x
    cases x with
    | none => exact ⟨by decide, by decide⟩
    | some q => exact ⟨le_max_left _ _, le_max_left _ _⟩
  · intro q hq
    exact ⟨max_eq_left (Int.floor_nonpos hq.le),
      max_eq_left (Int.floor_nonpos hq.le)⟩
  · intro q hq
    have h0 : (0 : Int) ≤ ⌊q⌋ := Int.le_floor.mpr (by exact_mod_cast hq)
    exact ⟨max_eq_right h0, max_eq_right h0⟩

/-- Witness for C9: a negative limit is clamped to 0 and a fractional offset
is floored. -/
theorem pagination_sanitized_witness :
    safeLimit50 (some (-3)) = 0 ∧ safeOffset0 (some (7 / 2)) = ⌊(7 / 2 : Rat)⌋ :=
  ⟨(pagination_sanitized.2.2.1 (-3) (by norm_num)).1,
   (pagination_sanitized.2.2.2 (7 / 2) (by norm_num)).2⟩

lemma validate_amount_not_empty {b : RawPaymentBody}
    (h : isValidAmount b.payment_amount = false) :
    (validatePayment b).isEmpty = false := by
  unfold validatePayment
  rw [h]
  simp

lemma validate_remarks_not_empty {b : RawPaymentBody} {r : String}
    (hr : b.remarks = some r) (hlen : ¬ r.trim.length ≤ 500) :
    (validatePayment b).isEmpty = false := by
  unfold validatePayment
  rw [hr]
  simp [hlen]

/-- Claim C10: the HTTP validation layer answers 400 "Validation Error" — the
durable state unchanged and the payment service never reached — whenever the
payment_amount is not a number, whenever it is a finite value below 0.01
(such as 0.005, which is greater than 0 yet rejected), and whenever the
remarks exceed 500 characters. -/
theorem route_min_amount_validation :
    (∀ env s b, b.payment_amount = none →
       postPaymentRoute env s b =
         (s, { status := 400, message := "Validation Error" })) ∧
    (∀ env s b q, b.payment_amount = some q → q < 1 / 100 →
       postPaymentRoute env s b =
         (s, { status := 400, message := "Validation Error" })) ∧
    (∀ env s b r, b.remarks = some r → 500 < r.trim.length →
       postPaymentRoute env s b =
         (s, { status := 400, message := "Validation Error" })) := by
  refine ⟨?_, ?_, ?_⟩
  · intro env s b hb
    have hiv : isValidAmount b.payment_amount = false := by
      rw [hb]
      rfl
    unfold postPaymentRoute
    rw [validate_amount_not_empty hiv]
    rfl
  · intro env s b q hb hq
    have hiv : isValidAmount b.payment_amount = false := by
      rw [hb]
      exact decide_eq_false (not_le.mpr hq)
    unfold postPaymentRoute
    rw [validate_amount_not_empty hiv]
    rfl
  · intro env s b r hr hlen
    unfold postPaymentRoute
    rw [validate_remarks_not_empty hr (not_le.mpr hlen)]
    rfl

/-- Witness for C10: the amount 0.005 is strictly positive yet the route
rejects it with the 400 validation response, leaving the state unchanged. -/
theorem route_min_amount_validation_witness :
    (0 : Rat) < 1 / 200 ∧
    postPaymentRoute envA dbA bLow =
      (dbA, { status := 400, message := "Validation Error" }) :=
  ⟨by norm_num,
   route_min_amount_validation.2.1 envA dbA bLow (1 / 200) rfl (by norm_num)⟩

end PaymentApp
